import Mathlib

/-!
Verification development for the python interview backend
(`python_backend/dialogflow_interview.py`, `python_backend/dialogflow_voice.py`,
`python_backend/app.py`).

The code is shallowly embedded: the per-session database is a record of the
keys the backend reads and writes, external calls (Dialogflow, Gemini) are
oracles passed as arguments, and the issued requests are collected in an
explicit call log.  The JSON handling of the scorer (`json.loads` plus the two
`re.search` patterns) is embedded as executable scanners over character lists.
-/

set_option maxRecDepth 10000

namespace AskAI

/-! ## Character and string utilities -/

/-- The six ASCII characters matched by the regex class `\s`. -/
def isPySpace (c : Char) : Bool :=
  c = ' ' || c = '\t' || c = '\n' || c = '\r' || c = '\x0b' || c = '\x0c'

/-- Drop the leading run of `\s` characters. -/
def dropPySpaces : List Char → List Char
  | [] => []
  | c :: cs => if isPySpace c then dropPySpaces cs else c :: cs

/-- `startsWithChars pat l` holds when `pat` is an initial segment of `l`. -/
def startsWithChars : List Char → List Char → Bool
  | [], _ => true
  | _ :: _, [] => false
  | a :: as, b :: bs => if a = b then startsWithChars as bs else false

/-- Remove `pat` from the front of `l`, when it is an initial segment. -/
def dropLit : List Char → List Char → Option (List Char)
  | [], l => some l
  | _ :: _, [] => none
  | a :: as, b :: bs => if a = b then dropLit as bs else none

/-- Substring containment on character lists (the semantics of python `in`). -/
def containsChars (hay needle : List Char) : Bool :=
  match hay with
  | [] => startsWithChars needle []
  | _ :: t => startsWithChars needle hay || containsChars t needle

/-! ## JSON values and `json.loads` -/

/-- JSON values as produced by python `json.loads`: objects keep key order,
`NaN` and `Infinity` are accepted constants, numbers are exact rationals. -/
inductive Json where
  | null : Json
  | bool (b : Bool) : Json
  | num (q : ℚ) : Json
  | str (s : String) : Json
  | arr (l : List Json) : Json
  | obj (l : List (String × Json)) : Json
  | nanV : Json
  | infV (neg : Bool) : Json

/-- Assoc-list lookup used for python `dict.get` / `in` on parsed objects. -/
def lookupStr : List (String × Json) → String → Option Json
  | [], _ => none
  | (k, v) :: rest, key => if k = key then some v else lookupStr rest key

/-- `score_data.get(key)`: `none` when the value is not an object. -/
def jsonGet : Json → String → Option Json
  | .obj kv, key => lookupStr kv key
  | _, _ => none

/-- `key in score_data` on a parsed object. -/
def jsonHas (j : Json) (key : String) : Bool := (jsonGet j key).isSome

/-- Python falsiness of a parsed JSON value (`not x`). -/
def pyFalsy : Json → Bool
  | .null => true
  | .bool b => !b
  | .num q => q = 0
  | .str s => s = ""
  | .arr l => l.isEmpty
  | .obj l => l.isEmpty
  | .nanV => false
  | .infV _ => false

/-- Insertion into an object under python `dict` semantics: a duplicate key
keeps its first position but receives the later value. -/
def objInsert : List (String × Json) → String → Json → List (String × Json)
  | [], key, v => [(key, v)]
  | (k, w) :: rest, key, v =>
    if k = key then (k, v) :: rest else (k, w) :: objInsert rest key v

/-- JSON whitespace accepted between tokens by `json.loads`. -/
def isJsonWs (c : Char) : Bool :=
  c = ' ' || c = '\t' || c = '\n' || c = '\r'

/-- Drop JSON whitespace. -/
def dropJsonWs : List Char → List Char
  | [] => []
  | c :: cs => if isJsonWs c then dropJsonWs cs else c :: cs

/-- Consume a maximal run of decimal digits, returning the value read,
the number of digits, and the rest. -/
def takeDigits (acc count : Nat) : List Char → Nat × Nat × List Char
  | c :: cs =>
    if c.isDigit then takeDigits (acc * 10 + (c.toNat - 48)) (count + 1) cs
    else (acc, count, c :: cs)
  | [] => (acc, count, [])

/-- Scan the body of a JSON string literal (opening quote consumed):
standard escapes, raw control characters rejected. -/
def scanJsonString (acc : List Char) : List Char → Option (String × List Char)
  | [] => none
  | '"' :: rest => some (String.mk acc.reverse, rest)
  | '\\' :: e :: rest =>
    match e with
    | '"' => scanJsonString ('"' :: acc) rest
    | '\\' => scanJsonString ('\\' :: acc) rest
    | '/' => scanJsonString ('/' :: acc) rest
    | 'b' => scanJsonString ('\x08' :: acc) rest
    | 'f' => scanJsonString ('\x0c' :: acc) rest
    | 'n' => scanJsonString ('\n' :: acc) rest
    | 'r' => scanJsonString ('\r' :: acc) rest
    | 't' => scanJsonString ('\t' :: acc) rest
    | 'u' =>
      match rest with
      | h1 :: h2 :: h3 :: h4 :: rest2 =>
        let isHex : Char → Bool := fun c =>
          c.isDigit || ('a' ≤ c && c ≤ 'f') || ('A' ≤ c && c ≤ 'F')
        if isHex h1 && isHex h2 && isHex h3 && isHex h4 then
          let hv : Char → Nat := fun c =>
            if c.isDigit then c.toNat - 48
            else if c.toNat ≥ 97 then c.toNat - 87 else c.toNat - 55
          scanJsonString
            (Char.ofNat (((hv h1 * 16 + hv h2) * 16 + hv h3) * 16 + hv h4) :: acc) rest2
        else none
      | _ => none
    | _ => none
  | c :: rest => if c.toNat < 32 then none else scanJsonString (c :: acc) rest

/-- Parse a JSON number (the grammar of the `json` module's `NUMBER_RE`):
`-? (0 | [1-9][0-9]*) (\.[0-9]+)? ([eE][-+]?[0-9]+)?`. -/
def scanJsonNumber (l : List Char) : Option (Json × List Char) :=
  let (neg, l1) := match l with
    | '-' :: r => (true, r)
    | _ => (false, l)
  let intPart : Option (Nat × List Char) := match l1 with
    | '0' :: r => some (0, r)
    | c :: _ =>
      if c.isDigit then
        let (v, _, r) := takeDigits 0 0 l1
        some (v, r)
      else none
    | [] => none
  match intPart with
  | none => none
  | some (iv, r1) =>
    let (fv, flen, r2) : Nat × Nat × List Char := match r1 with
      | '.' :: rf =>
        let (v, n, r) := takeDigits 0 0 rf
        (v, n, r)
      | _ => (0, 0, r1)
    match r1 with
    | '.' :: _ =>
      if flen = 0 then none else scanExp neg iv fv flen r2
    | _ => scanExp neg iv fv flen r2
where
  /-- Optional exponent part, then assemble the rational value. -/
  scanExp (neg : Bool) (iv fv flen : Nat) (r : List Char) :
      Option (Json × List Char) :=
    let mantissa : Int :=
      let m : Nat := iv * 10 ^ flen + fv
      if neg then -(m : Int) else (m : Int)
    match r with
    | 'e' :: re => scanExpDigits mantissa flen re
    | 'E' :: re => scanExpDigits mantissa flen re
    | _ => some (.num (mkRat mantissa (10 ^ flen)), r)
  /-- Signed exponent digits following `e`/`E`. -/
  scanExpDigits (mantissa : Int) (flen : Nat) (r : List Char) :
      Option (Json × List Char) :=
    let (eneg, r1) : Bool × List Char := match r with
      | '-' :: rr => (true, rr)
      | '+' :: rr => (false, rr)
      | _ => (false, r)
    let (ev, en, r2) := takeDigits 0 0 r1
    if en = 0 then none
    else
      let expo : Int := (if eneg then -(ev : Int) else (ev : Int)) - (flen : Int)
      let q : ℚ :=
        if 0 ≤ expo then mkRat (mantissa * 10 ^ expo.toNat) 1
        else mkRat mantissa (10 ^ (-expo).toNat)
      some (.num q, r2)

/-- Parse the elements of a non-empty array, after `[`, one value parser
step passed in as `pv`. -/
def parseArrElems (pv : List Char → Option (Json × List Char)) :
    Nat → List Char → Option (List Json × List Char)
  | 0, _ => none
  | efuel + 1, l =>
    match pv l with
    | none => none
    | some (v, r1) =>
      match dropJsonWs r1 with
      | ',' :: r2 =>
        (parseArrElems pv efuel r2).map (fun p => (v :: p.1, p.2))
      | ']' :: r2 => some ([v], r2)
      | _ => none

/-- Parse the members of a non-empty object, after `{`; duplicate keys follow
python `dict` update order. -/
def parseObjMembers (pv : List Char → Option (Json × List Char)) :
    Nat → List (String × Json) → List Char →
    Option (List (String × Json) × List Char)
  | 0, _, _ => none
  | efuel + 1, acc, l =>
    match dropJsonWs l with
    | '"' :: r1 =>
      match scanJsonString [] r1 with
      | none => none
      | some (key, r2) =>
        match dropJsonWs r2 with
        | ':' :: r3 =>
          match pv r3 with
          | none => none
          | some (v, r4) =>
            let acc2 := objInsert acc key v
            match dropJsonWs r4 with
            | ',' :: r5 => parseObjMembers pv efuel acc2 r5
            | '}' :: r5 => some (acc2, r5)
            | _ => none
        | _ => none
    | _ => none

/-- Parse one JSON value (fuel-indexed recursive descent, fuel bounds the
nesting depth; the element loops are bounded by the remaining length). -/
def parseVal : Nat → List Char → Option (Json × List Char)
  | 0, _ => none
  | fuel + 1, l =>
    match dropJsonWs l with
    | 'n' :: 'u' :: 'l' :: 'l' :: rest => some (.null, rest)
    | 't' :: 'r' :: 'u' :: 'e' :: rest => some (.bool true, rest)
    | 'f' :: 'a' :: 'l' :: 's' :: 'e' :: rest => some (.bool false, rest)
    | 'N' :: 'a' :: 'N' :: rest => some (.nanV, rest)
    | 'I' :: 'n' :: 'f' :: 'i' :: 'n' :: 'i' :: 't' :: 'y' :: rest =>
      some (.infV false, rest)
    | '-' :: 'I' :: 'n' :: 'f' :: 'i' :: 'n' :: 'i' :: 't' :: 'y' :: rest =>
      some (.infV true, rest)
    | '"' :: rest => (scanJsonString [] rest).map (fun p => (.str p.1, p.2))
    | '[' :: rest =>
      (match dropJsonWs rest with
       | ']' :: r2 => some (.arr [], r2)
       | r2 =>
         (parseArrElems (fun l2 => parseVal fuel l2) (r2.length + 1) r2).map
           (fun p => (.arr p.1, p.2)))
    | '{' :: rest =>
      (match dropJsonWs rest with
       | '}' :: r2 => some (.obj [], r2)
       | r2 =>
         (parseObjMembers (fun l2 => parseVal fuel l2) (r2.length + 1) [] r2).map
           (fun p => (.obj p.1, p.2)))
    | rest => scanJsonNumber rest
termination_by structural fuel _ => fuel

/-- `json.loads`: parse one value, then require only whitespace to follow. -/
def jsonLoads (s : String) : Option Json :=
  match parseVal (2 * s.length + 2) s.data with
  | none => none
  | some (v, rest) =>
    match dropJsonWs rest with
    | [] => some v
    | _ => none

/-! ## The two `re.search` patterns of `score_interview`

`score_interview` first tries
`re.search(r```(?:json)?\\s*(\\{.*?\\})\\s*```, text, re.DOTALL)`
(written here with ``` for a backtick) and, when that fails,
`re.search(r\\{[^{}]*(?:\\{[^{}]*\\}[^{}]*)*\\}, text, re.DOTALL)`.
Both scanners below implement the leftmost-match backtracking semantics of
those concrete patterns. -/

/-- The three backticks opening and closing a fenced code block. -/
def fenceChars : List Char := "```".data

/-- One backtracking step of the lazy group `(\{.*?\})\s*` + fence: the list
is the text after the opening brace; return the shortest body whose closing
brace is followed by whitespace and three backticks. -/
def fencedBody : List Char → Option (List Char)
  | [] => none
  | c :: cs =>
    if c = '}' && startsWithChars fenceChars (dropPySpaces cs) then some []
    else (fencedBody cs).map (fun b => c :: b)

/-- Attempt the fenced-block pattern at one start position: literal three
backticks, optional `json` (tried first, as the regex is greedy), `\s*`,
then the lazy brace group.  Returns capture group 1. -/
def matchFenceAt (l : List Char) : Option (List Char) :=
  match dropLit fenceChars l with
  | none => none
  | some r1 =>
    let tryFrom : List Char → Option (List Char) := fun r =>
      match dropPySpaces r with
      | '{' :: rest => (fencedBody rest).map (fun b => '{' :: (b ++ ['}']))
      | _ => none
    match dropLit "json".data r1 with
    | some r2 =>
      (match tryFrom r2 with
       | some g => some g
       | none => tryFrom r1)
    | none => tryFrom r1

/-- Leftmost search for the fenced-block pattern; result is capture group 1,
the brace-delimited span inside the fence. -/
def fenceSearch : List Char → Option (List Char)
  | [] => none
  | l@(_ :: t) =>
    match matchFenceAt l with
    | some g => some g
    | none => fenceSearch t

/-- Split off the maximal run of characters other than `{` and `}`. -/
def spanNonBrace : List Char → List Char × List Char
  | [] => ([], [])
  | c :: cs =>
    if c = '{' || c = '}' then ([], c :: cs)
    else
      let (a, r) := spanNonBrace cs
      (c :: a, r)

/-- The loop `(?:\{[^{}]*\}[^{}]*)*\}` after the opening brace and first
`[^{}]*` run; returns the remaining matched characters. -/
def braceLoop : Nat → List Char → Option (List Char)
  | 0, _ => none
  | _ + 1, '}' :: _ => some ['}']
  | efuel + 1, '{' :: rest =>
    let (b, r2) := spanNonBrace rest
    (match r2 with
     | '}' :: r3 =>
       let (c, r4) := spanNonBrace r3
       (braceLoop efuel r4).map (fun tail => '{' :: (b ++ '}' :: (c ++ tail)))
     | _ => none)
  | _ + 1, _ => none

/-- Attempt the brace-span pattern at one start position. -/
def matchBraceAt (l : List Char) : Option (List Char) :=
  match l with
  | '{' :: rest =>
    let (a, r) := spanNonBrace rest
    (braceLoop (r.length + 1) r).map (fun tail => '{' :: (a ++ tail))
  | _ => none

/-- Leftmost search for the brace-span pattern. -/
def braceSearch : List Char → Option (List Char)
  | [] => none
  | l@(_ :: t) =>
    match matchBraceAt l with
    | some g => some g
    | none => braceSearch t

/-! ## Backend state and external-call model

The database stores, per session, the keys written by the backend
(`transcript`, `last_agent_question`, `session_info`, `score_report`); every
claim concerns a single session, so the state is that session's record.
Dialogflow and Gemini are oracles passed as `Except Unit` arguments (`.error`
models an exception raised by the external call), and each issued external
request is recorded in a call log. -/

/-- One transcript record, as written by `save_transcript_entry`. -/
structure Entry where
  turn : Nat
  question : String
  answer : String
deriving DecidableEq

/-- The `session_info` record written by the start operations. -/
structure SessionInfo where
  role : String
  resume_summary : String
  persona : String
  difficulty : String
  mode : Option String
deriving DecidableEq

/-- Per-session database state. -/
structure DB where
  transcript : Option (List Entry)
  last_agent_question : Option String
  session_info : Option SessionInfo
  score_report : Option Json

/-- A Dialogflow `DetectIntentRequest`, as assembled by the backend. -/
structure DFRequest where
  session : String
  text : Option String
  audio : Bool
  audio_encoding : Option String
  sample_rate : Option Nat
  query_params : Option (List (String × String))
  output_audio : Bool
deriving DecidableEq

/-- One external call issued by the backend. -/
inductive Call where
  | detect (req : DFRequest)
  | gemini (num_questions : Nat)
deriving DecidableEq

/-- Errors raised (as python exceptions) by the embedded operations;
`typeError` and `attributeError` are the python `TypeError`/`AttributeError`
raised by `len()`, `.get` and slicing on unsuitable values. -/
inductive Err where
  | platformError
  | geminiFailed
  | jsonParseError
  | missingOverallScore
  | missingSummary
  | noQuestionScores
  | noTranscript
  | missingSessionId
  | typeError
  | attributeError
deriving DecidableEq

/-- Result of one embedded operation: the returned value or raised error,
the database afterwards, and the external calls issued. -/
structure Step (α : Type) where
  result : Except Err α
  db : DB
  calls : List Call

/-- A Dialogflow response: the speech-to-text of the query (`query_text`),
the texts of each response message, the matched intent's display name, and
the synthesized output audio (empty = none). -/
structure PlatformResp where
  query_text : String
  messages : List (List String)
  intent : Option String
  output_audio : String
deriving DecidableEq

/-- Python truthiness of an optional string (`if not last_agent_question`). -/
def pyTruthyOpt : Option String → Bool
  | none => false
  | some s => !(s = "")

/-- `get_transcript`: the stored list, or `[]` when absent. -/
def get_transcript (db : DB) : List Entry :=
  db.transcript.getD []

/-- `save_transcript_entry`: read the current list, number the new record
`len + 1`, append, write back. -/
def save_transcript_entry (db : DB) (question answer : String) : DB :=
  let transcript := get_transcript db
  let turn_number := transcript.length + 1
  let entry : Entry := { turn := turn_number, question := question, answer := answer }
  { db with transcript := some (transcript ++ [entry]) }

/-- The loop extracting the agent reply: the first response message with a
non-empty text list contributes its first text. -/
def extract_agent_response : List (List String) → String
  | [] => ""
  | [] :: ms => extract_agent_response ms
  | (t :: _) :: _ => t

/-- The fixed keyword set of the is-interview-over check. -/
def end_keywords : List String := ["end", "complete", "finish", "done"]

/-- ASCII lowercasing of one character, as python `str.lower` acts on the
ASCII range. -/
def pyToLowerChar (c : Char) : Char :=
  if 'A' ≤ c && c ≤ 'Z' then Char.ofNat (c.toNat + 32) else c

/-- `intent_name.lower()` (the intent display names are ASCII). -/
def pyLower (s : String) : String := String.mk (s.data.map pyToLowerChar)

/-- `is_end`: some keyword occurs in the lowercased intent display name. -/
def isEndIntent (intent_name : String) : Bool :=
  end_keywords.any (fun keyword => containsChars (pyLower intent_name).data keyword.data)

/-- The effective previous question: the argument when truthy, otherwise the
stored `last_agent_question`. -/
def effective_last_question (db : DB) (arg : Option String) : Option String :=
  if pyTruthyOpt arg then arg else db.last_agent_question

/-- The value returned by `detect_intent`. -/
structure DetectResult where
  agent_response : String
  intent : String
  is_end : Bool
  session_id : String
deriving DecidableEq

/-- `detect_intent` (text exchange): fetch the pending question when not
given, append the question/answer pair to the transcript, then issue the
Dialogflow request with no `query_params`, extract the reply and the end
flag, and store the reply as the next pending question. -/
def detect_intent (db : DB) (session_id user_message : String)
    (last_agent_question : Option String) (platform : Except Unit PlatformResp) :
    Step DetectResult :=
  let laq := effective_last_question db last_agent_question
  let db1 := if pyTruthyOpt laq then save_transcript_entry db (laq.getD "") user_message else db
  let req : DFRequest :=
    { session := session_id, text := some user_message, audio := false,
      audio_encoding := none, sample_rate := none, query_params := none,
      output_audio := false }
  match platform with
  | .error _ => { result := .error .platformError, db := db1, calls := [.detect req] }
  | .ok resp =>
    let agent_response := extract_agent_response resp.messages
    let intent_name := resp.intent.getD ""
    let is_end := isEndIntent intent_name
    let db2 :=
      if !(agent_response = "") && !is_end then
        { db1 with last_agent_question := some agent_response }
      else db1
    { result := .ok { agent_response := agent_response, intent := intent_name,
                      is_end := is_end, session_id := session_id },
      db := db2, calls := [.detect req] }

/-- JSON extraction from the raw Gemini reply, as in `score_interview`:
fenced block first, then the brace-span regex, then the whole reply; the
selected candidate is decoded, a decode failure raising the fatal
`Failed to parse Gemini response as JSON` error. -/
def extract_score_data (response_text : String) : Except Err Json :=
  match fenceSearch response_text.data with
  | some g =>
    (match jsonLoads (String.mk g) with
     | some score_data => .ok score_data
     | none => .error .jsonParseError)
  | none =>
    match braceSearch response_text.data with
    | some m =>
      (match jsonLoads (String.mk m) with
       | some score_data => .ok score_data
       | none => .error .jsonParseError)
    | none =>
      match jsonLoads response_text with
      | some score_data => .ok score_data
      | none => .error .jsonParseError

/-- `len(x)` on a parsed JSON value: strings, lists and dicts are sized,
and `len()` raises a TypeError for every other value. -/
def pyLen : Json → Option Nat
  | .str s => some s.length
  | .arr l => some l.length
  | .obj kv => some kv.length
  | _ => none

/-- One entry of the verification print loop (`score_interview` lines
403-406): `.get` requires a dict (AttributeError otherwise), and slicing the
justification value with `[:100]` requires a string or list (TypeError
otherwise); an absent key defaults to the sliceable string N/A. -/
def printLoopEntry : Json → Option Err
  | .obj kv =>
    (match lookupStr kv "justification" with
     | none => none
     | some (.str _) => none
     | some (.arr _) => none
     | some _ => some .typeError)
  | _ => some .attributeError

/-- Run the verification print loop over the elements of the per-question
list, stopping at the first entry that raises. -/
def printLoopRun : List Json → Option Err
  | [] => none
  | e :: rest =>
    match printLoopEntry e with
    | some err => some err
    | none => printLoopRun rest

/-- The verification print loop over `question_scores`, which is sized and
truthy when reached: iterating a non-empty string or dict yields strings,
whose `.get` raises AttributeError; a list is checked entry by entry; the
remaining values are not iterable (unreachable, as `len()` already raised
for them). -/
def printLoopCheck : Json → Option Err
  | .arr l => printLoopRun l
  | .str s => if s = "" then none else some .attributeError
  | .obj kv => if kv.isEmpty then none else some .attributeError
  | _ => some .typeError

/-- Post-parse validation of `score_data`: `score_data.get` at line 377
requires a dict (AttributeError otherwise); the warning at line 378
evaluates `len(question_scores)`, a TypeError for values without a length
(the count comparison itself only prints); then `overall_score` and
`summary` must be present and the per-question list non-empty (python
truthiness of `score_data.get('question_scores', [])`). -/
def validate_score_data (score_data : Json) : Except Err Json :=
  match score_data with
  | .obj _ =>
    let question_scores := (jsonGet score_data "question_scores").getD (Json.arr [])
    (match pyLen question_scores with
     | none => .error .typeError
     | some _ =>
       if !(jsonHas score_data "overall_score") then .error .missingOverallScore
       else if !(jsonHas score_data "summary") then .error .missingSummary
       else if pyFalsy question_scores then .error .noQuestionScores
       else .ok score_data)
  | _ => .error .attributeError

/-- `score_interview`: fail on an empty transcript before any model call;
otherwise call Gemini with the transcript (the call records the
question count embedded in the prompt), extract and validate the JSON reply,
best-effort persist it (`db_fail` models a storage exception, which is
caught and swallowed), and then run the verification print loop — whose
AttributeError/TypeError propagates, failing the call even though the
report was already persisted. -/
def score_interview (db : DB) (gemini : Except Unit String) (db_fail : Bool) :
    Step Json :=
  let transcript := get_transcript db
  if transcript.length = 0 then
    { result := .error .noTranscript, db := db, calls := [] }
  else
    let num_questions := transcript.length
    match gemini with
    | .error _ =>
      { result := .error .geminiFailed, db := db, calls := [.gemini num_questions] }
    | .ok response_text =>
      match extract_score_data response_text with
      | .error e => { result := .error e, db := db, calls := [.gemini num_questions] }
      | .ok score_data =>
        match validate_score_data score_data with
        | .error e => { result := .error e, db := db, calls := [.gemini num_questions] }
        | .ok _ =>
          let db1 := if db_fail then db else { db with score_report := some score_data }
          match printLoopCheck ((jsonGet score_data "question_scores").getD (Json.arr [])) with
          | some e => { result := .error e, db := db1, calls := [.gemini num_questions] }
          | none => { result := .ok score_data, db := db1, calls := [.gemini num_questions] }

/-- The value returned by `start_interview_session`. -/
structure StartResult where
  agent_response : String
  session_id : String
deriving DecidableEq

/-- The session parameters attached (only) to the start request. -/
def start_custom_params (resume_summary persona difficulty : String) :
    List (String × String) :=
  [("candidate_resume_summary", resume_summary),
   ("interviewer_persona", persona),
   ("difficulty_level", difficulty)]

/-- `start_interview_session`: send the role-selection text together with the
session parameters in `query_params`, extract the first reply (with the fixed
fallback sentence), then initialize `transcript := []` and store the reply as
the pending question (`db_fail` models a swallowed storage exception). -/
def start_interview_session (db : DB) (session_id role_selection resume_summary
    persona difficulty : String) (platform : Except Unit PlatformResp)
    (db_fail : Bool) : Step StartResult :=
  let req : DFRequest :=
    { session := session_id, text := some role_selection, audio := false,
      audio_encoding := none, sample_rate := none,
      query_params := some (start_custom_params resume_summary persona difficulty),
      output_audio := false }
  match platform with
  | .error _ => { result := .error .platformError, db := db, calls := [.detect req] }
  | .ok resp =>
    let agent_response := extract_agent_response resp.messages
    let agent_response :=
      if agent_response = "" then "Thank you for your interest. Let\x27s begin the interview."
      else agent_response
    let db1 :=
      if db_fail then db
      else
        { db with transcript := some [], last_agent_question := some agent_response,
                  session_info := some { role := role_selection,
                                         resume_summary := resume_summary, persona := persona,
                                         difficulty := difficulty, mode := none } }
    { result := .ok { agent_response := agent_response, session_id := session_id },
      db := db1, calls := [.detect req] }

/-- The value returned by `detect_intent_with_audio`. -/
structure VoiceDetectResult where
  audio_response : Option String
  audio_format : String
  agent_response_text : String
  user_transcript : String
  intent : String
  is_end : Bool
  session_id : String
deriving DecidableEq

/-- The audio-encoding names accepted by `encoding_map`; others fall back to
WebM Opus. -/
def encoding_map (audio_encoding : String) : String :=
  if audio_encoding = "AUDIO_ENCODING_WEBM_OPUS"
      || audio_encoding = "AUDIO_ENCODING_LINEAR_16"
      || audio_encoding = "AUDIO_ENCODING_MULAW"
      || audio_encoding = "AUDIO_ENCODING_ALAW" then
    audio_encoding
  else "AUDIO_ENCODING_WEBM_OPUS"

/-- `detect_intent_with_audio` (voice exchange): send the audio (no
`query_params`), and only after a successful platform call pair the stored
pending question with the speech-to-text `query_text` — the pair is saved
only when both are truthy.  The reply text falls back to a fixed sentence
when empty, and is stored as the next pending question unless the interview
ended. -/
def detect_intent_with_audio (db : DB) (session_id : String)
    (audio_encoding : String) (sample_rate : Nat)
    (last_agent_question : Option String) (platform : Except Unit PlatformResp) :
    Step VoiceDetectResult :=
  let laq := effective_last_question db last_agent_question
  let req : DFRequest :=
    { session := session_id, text := none, audio := true,
      audio_encoding := some (encoding_map audio_encoding),
      sample_rate := some sample_rate, query_params := none,
      output_audio := true }
  match platform with
  | .error _ => { result := .error .platformError, db := db, calls := [.detect req] }
  | .ok resp =>
    let user_transcript := resp.query_text
    let db1 :=
      if pyTruthyOpt laq && !(user_transcript = "") then
        save_transcript_entry db (laq.getD "") user_transcript
      else db
    let agent_response_text := extract_agent_response resp.messages
    let agent_response_text :=
      if agent_response_text = "" then
        "I didn\x27t catch that. Could you please repeat your answer?"
      else agent_response_text
    let intent_name := resp.intent.getD ""
    let is_end := isEndIntent intent_name
    let db2 :=
      if !(agent_response_text = "") && !is_end then
        { db1 with last_agent_question := some agent_response_text }
      else db1
    let audio_base64 := if resp.output_audio = "" then none else some resp.output_audio
    { result := .ok { audio_response := audio_base64, audio_format := "mp3",
                      agent_response_text := agent_response_text,
                      user_transcript := user_transcript, intent := intent_name,
                      is_end := is_end, session_id := session_id },
      db := db2, calls := [.detect req] }

/-- The value returned by `start_voice_interview_session`. -/
structure VoiceStartResult where
  audio_response : Option String
  audio_format : String
  agent_response_text : String
  session_id : String
deriving DecidableEq

/-- `start_voice_interview_session`: like the text start, but requesting
audio output; initializes `transcript := []` and stores the first reply as
the pending question. -/
def start_voice_interview_session (db : DB) (session_id role_selection_text
    resume_summary persona difficulty : String) (platform : Except Unit PlatformResp)
    (db_fail : Bool) : Step VoiceStartResult :=
  let req : DFRequest :=
    { session := session_id, text := some role_selection_text, audio := false,
      audio_encoding := none, sample_rate := none,
      query_params := some (start_custom_params resume_summary persona difficulty),
      output_audio := true }
  match platform with
  | .error _ => { result := .error .platformError, db := db, calls := [.detect req] }
  | .ok resp =>
    let agent_response_text := extract_agent_response resp.messages
    let agent_response_text :=
      if agent_response_text = "" then
        "Thank you for your interest. Let\x27s begin the interview."
      else agent_response_text
    let audio_base64 := if resp.output_audio = "" then none else some resp.output_audio
    let db1 :=
      if db_fail then db
      else
        { db with transcript := some [], last_agent_question := some agent_response_text,
                  session_info := some { role := role_selection_text,
                                         resume_summary := resume_summary, persona := persona,
                                         difficulty := difficulty, mode := some "voice" } }
    { result := .ok { audio_response := audio_base64, audio_format := "mp3",
                      agent_response_text := agent_response_text,
                      session_id := session_id },
      db := db1, calls := [.detect req] }

/-- The `/api/voice-interview/score` route: 400 when `session_id` is missing
or falsy, otherwise `score_interview` with any raised error surfaced as a
500 response. -/
def score_voice_interview_route (db : DB) (session_id : Option String)
    (gemini : Except Unit String) (db_fail : Bool) : Nat × Step Json :=
  if !(pyTruthyOpt session_id) then
    (400, { result := .error .missingSessionId, db := db, calls := [] })
  else
    let out := score_interview db gemini db_fail
    match out.result with
    | .ok _ => (200, out)
    | .error _ => (500, out)

/-! ## Shared lemmas -/

theorem get_transcript_save (db : DB) (q a : String) :
    get_transcript (save_transcript_entry db q a) =
      get_transcript db ++
        [{ turn := (get_transcript db).length + 1, question := q, answer := a }] := by
  simp [save_transcript_entry, get_transcript]

/-- An uninterrupted sequence of completed exchanges: one
`save_transcript_entry` per exchange. -/
def run_exchanges (db : DB) (pairs : List (String × String)) : DB :=
  pairs.foldl (fun d p => save_transcript_entry d p.1 p.2) db

/-- The records a sequence of pairs receives when numbering starts at `k`. -/
def numberFrom (k : Nat) : List (String × String) → List Entry
  | [] => []
  | p :: ps => { turn := k, question := p.1, answer := p.2 } :: numberFrom (k + 1) ps

theorem run_exchanges_get (pairs : List (String × String)) :
    ∀ db : DB, get_transcript (run_exchanges db pairs) =
      get_transcript db ++ numberFrom ((get_transcript db).length + 1) pairs := by
  induction pairs with
  | nil => intro db; simp [run_exchanges, numberFrom]
  | cons p ps ih =>
    intro db
    have h1 : run_exchanges db (p :: ps) =
        run_exchanges (save_transcript_entry db p.1 p.2) ps := rfl
    rw [h1, ih, get_transcript_save]
    simp [numberFrom]

theorem numberFrom_map_turn (pairs : List (String × String)) :
    ∀ k, (numberFrom k pairs).map Entry.turn = List.range' k pairs.length := by
  induction pairs with
  | nil => intro k; simp [numberFrom]
  | cons p ps ih => intro k; simp [numberFrom, List.range'_succ, ih]

theorem numberFrom_length (pairs : List (String × String)) (k : Nat) :
    (numberFrom k pairs).length = pairs.length := by
  induction pairs generalizing k with
  | nil => simp [numberFrom]
  | cons p ps ih => simp [numberFrom, ih]

/-! ## C1 -/

/-- C1: starting from an empty stored transcript, every
`save_transcript_entry` call reads the current list, numbers the new record
`length + 1` and appends it, so after `N` completed exchanges the transcript
has exactly `N` entries whose turn numbers are `1..N` in order. -/
theorem C1_transcript_turns (db : DB) (pairs : List (String × String))
    (h : get_transcript db = []) :
    (get_transcript (run_exchanges db pairs)).length = pairs.length ∧
    (get_transcript (run_exchanges db pairs)).map Entry.turn =
      List.range' 1 pairs.length ∧
    ∀ (d : DB) (q a : String),
      get_transcript (save_transcript_entry d q a) =
        get_transcript d ++
          [{ turn := (get_transcript d).length + 1, question := q, answer := a }] := by
  refine ⟨?_, ?_, fun d q a => get_transcript_save d q a⟩
  · rw [run_exchanges_get, h]
    simp [numberFrom_length]
  · rw [run_exchanges_get, h]
    simp [numberFrom_map_turn]

theorem C1_transcript_turns_witness :
    get_transcript { transcript := some [], last_agent_question := none,
                     session_info := none, score_report := none } = [] ∧
    (get_transcript (run_exchanges
        { transcript := some [], last_agent_question := none,
          session_info := none, score_report := none }
        [("q1", "a1"), ("q2", "a2")])).map Entry.turn = List.range' 1 2 :=
  ⟨rfl, (C1_transcript_turns
      { transcript := some [], last_agent_question := none,
        session_info := none, score_report := none }
      [("q1", "a1"), ("q2", "a2")] rfl).2.1⟩

/-! ## C2 -/

/-- A session state with empty transcript and a stored pending question. -/
def c2db : DB :=
  { transcript := some [], last_agent_question := some "Q1",
    session_info := none, score_report := none }

/-- C2 counterexample: in the audio variant, with a pending question stored,
a failing platform call leaves the transcript unchanged — the new turn is
NOT persisted before the detect-intent call. -/
theorem C2_counterexample :
    pyTruthyOpt (effective_last_question c2db none) = true ∧
    (detect_intent_with_audio c2db "s" "AUDIO_ENCODING_WEBM_OPUS" 24000 none
        (.error ())).db.transcript = some [] ∧
    (detect_intent_with_audio c2db "s" "AUDIO_ENCODING_WEBM_OPUS" 24000 none
        (.error ())).result = .error .platformError :=
  ⟨rfl, rfl, rfl⟩

/-- C2 (amended): in the text exchange, a stored pending question is paired
with the utterance and appended before the platform call, so a platform
failure still leaves the new turn persisted; in the audio variant the pair
is appended only after a successful platform call (the answer is the
platform's transcription), so a platform failure leaves the database
unchanged. -/
theorem C2_append_before_platform (db : DB) (session_id msg : String)
    (laqArg : Option String)
    (h : pyTruthyOpt (effective_last_question db laqArg) = true) :
    get_transcript (detect_intent db session_id msg laqArg (.error ())).db =
      get_transcript db ++
        [{ turn := (get_transcript db).length + 1,
           question := (effective_last_question db laqArg).getD "",
           answer := msg }] ∧
    ∀ (enc : String) (sr : Nat),
      (detect_intent_with_audio db session_id enc sr laqArg (.error ())).db = db := by
  constructor
  · simp only [detect_intent, h, if_true]
    exact get_transcript_save db _ msg
  · intro enc sr
    simp [detect_intent_with_audio]

theorem C2_append_before_platform_witness :
    pyTruthyOpt (effective_last_question c2db none) = true ∧
    get_transcript (detect_intent c2db "s" "ans" none (.error ())).db =
      get_transcript c2db ++
        [{ turn := (get_transcript c2db).length + 1,
           question := (effective_last_question c2db none).getD "",
           answer := "ans" }] :=
  ⟨rfl, (C2_append_before_platform c2db "s" "ans" none rfl).1⟩

/-! ## C3 -/

/-- The spec's example reply: a json-labeled fence around one score object. -/
def spec_example_reply : String :=
  "```json\n\x7b\"overall_score\":7,\"summary\":\"ok\",\"question_scores\":[\x7b\"question_number\":1,\"score\":7,\"justification\":\"fine\"\x7d]\x7d\n```"

/-- The object embedded in `spec_example_reply`. -/
def spec_example_group : String :=
  "\x7b\"overall_score\":7,\"summary\":\"ok\",\"question_scores\":[\x7b\"question_number\":1,\"score\":7,\"justification\":\"fine\"\x7d]\x7d"

/-- The parsed value of `spec_example_group`. -/
def spec_example_obj : Json :=
  .obj [("overall_score", .num (mkRat 7 1)), ("summary", .str "ok"),
        ("question_scores", .arr [.obj [("question_number", .num (mkRat 1 1)),
          ("score", .num (mkRat 7 1)), ("justification", .str "fine")]])]

/-- Modelled from the spec's words, for comparison with the code: try the
three candidates in order *until one parses as JSON*, a decode failure at
step (3) alone being fatal. -/
def extract_score_data_spec_policy (response_text : String) : Except Err Json :=
  let step3 : Except Err Json :=
    match jsonLoads response_text with
    | some j => .ok j
    | none => .error .jsonParseError
  let step2 : Except Err Json :=
    match braceSearch response_text.data with
    | some m =>
      (match jsonLoads (String.mk m) with
       | some j => .ok j
       | none => step3)
    | none => step3
  match fenceSearch response_text.data with
  | some g =>
    (match jsonLoads (String.mk g) with
     | some j => .ok j
     | none => step2)
  | none => step2

/-- A reply whose fenced block holds unparsable text while an earlier brace
span parses fine. -/
def c3_reply_a : String := "\x7b\"a\": 1\x7d\n```json\n\x7bbad\x7d\n```"

/-- A json-labeled fenced block holding a well-formed object whose summary
string contains a close brace followed by a space and three backticks. -/
def c3_reply_b : String := "```json\n\x7b\"summary\": \"\x7d ```\"\x7d\n```"

/-- The object text embedded in `c3_reply_b`. -/
def c3_embedded_b : String := "\x7b\"summary\": \"\x7d ```\"\x7d"

/-- C3 counterexample: (a) the code raises a fatal decode error on
`c3_reply_a` although a later step parses (the spec-worded policy returns
the object), so extraction does not proceed *until one parses as JSON*;
(b) on `c3_reply_b`, a fenced reply containing one well-formed score object,
the code also fails instead of returning the embedded object. -/
theorem C3_counterexample :
    extract_score_data c3_reply_a = .error .jsonParseError ∧
    extract_score_data_spec_policy c3_reply_a = .ok (.obj [("a", .num (mkRat 1 1))]) ∧
    extract_score_data c3_reply_b = .error .jsonParseError ∧
    jsonLoads c3_embedded_b = some (.obj [("summary", .str "\x7d ```")]) :=
  ⟨rfl, rfl, rfl, rfl⟩

/-- C3 (amended): the Scorer selects a candidate by trying, in order, until
one is *found*: (1) a fenced code block labeled json, (2) the first
brace-delimited span matched by the greedy regular expression, (3) the
entire reply; the selected candidate is then JSON-decoded, and a decode
failure at whichever step was selected is a fatal scoring error.  For the
spec's concrete fenced example reply, the Scorer returns the embedded
object unchanged. -/
theorem C3_extraction_policy (r : String) :
    (∀ g, fenceSearch r.data = some g →
      extract_score_data r =
        (match jsonLoads (String.mk g) with
         | some j => .ok j
         | none => .error .jsonParseError)) ∧
    (∀ m, fenceSearch r.data = none → braceSearch r.data = some m →
      extract_score_data r =
        (match jsonLoads (String.mk m) with
         | some j => .ok j
         | none => .error .jsonParseError)) ∧
    (fenceSearch r.data = none → braceSearch r.data = none →
      extract_score_data r =
        (match jsonLoads r with
         | some j => .ok j
         | none => .error .jsonParseError)) ∧
    extract_score_data spec_example_reply = .ok spec_example_obj := by
  refine ⟨?_, ?_, ?_, rfl⟩
  · intro g hg
    simp only [extract_score_data, hg]
  · intro m hg hm
    simp only [extract_score_data, hg, hm]
  · intro hg hm
    simp only [extract_score_data, hg, hm]

theorem C3_extraction_policy_witness :
    extract_score_data spec_example_reply =
      (match jsonLoads (String.mk spec_example_group.data) with
       | some j => .ok j
       | none => .error .jsonParseError) :=
  (C3_extraction_policy spec_example_reply).1 spec_example_group.data rfl

/-! ## C4 -/

theorem validate_score_data_eq (kv : List (String × Json)) (l : List Json)
    (hqs : (jsonGet (Json.obj kv) "question_scores").getD (Json.arr []) = Json.arr l) :
    validate_score_data (Json.obj kv) =
      (if jsonHas (Json.obj kv) "overall_score" = false then .error .missingOverallScore
       else if jsonHas (Json.obj kv) "summary" = false then .error .missingSummary
       else if l.isEmpty then .error .noQuestionScores
       else .ok (Json.obj kv)) := by
  simp only [validate_score_data, hqs, pyLen, pyFalsy]
  cases h1 : jsonHas (Json.obj kv) "overall_score" <;>
    cases h2 : jsonHas (Json.obj kv) "summary" <;>
      cases h3 : l.isEmpty <;> simp [h1, h2, h3]

theorem score_interview_reduce (db : DB) (r : String)
    (hT : get_transcript db ≠ []) (db_fail : Bool) :
    score_interview db (.ok r) db_fail =
      (match extract_score_data r with
       | .error e =>
         { result := .error e, db := db,
           calls := [.gemini (get_transcript db).length] }
       | .ok score_data =>
         match validate_score_data score_data with
         | .error e =>
           { result := .error e, db := db,
             calls := [.gemini (get_transcript db).length] }
         | .ok _ =>
           match printLoopCheck ((jsonGet score_data "question_scores").getD (Json.arr [])) with
           | some e =>
             { result := .error e,
               db := if db_fail then db else { db with score_report := some score_data },
               calls := [.gemini (get_transcript db).length] }
           | none =>
             { result := .ok score_data,
               db := if db_fail then db else { db with score_report := some score_data },
               calls := [.gemini (get_transcript db).length] }) := by
  have hlen : ¬((get_transcript db).length = 0) := by
    simpa [List.length_eq_zero] using hT
  simp only [score_interview, if_neg hlen]

/-- A one-turn session state used for concrete scoring evaluations. -/
def c4db : DB :=
  { transcript := some [{ turn := 1, question := "Q1", answer := "A1" }],
    last_agent_question := none, session_info := none, score_report := none }

/-- A reply whose score object has both required fields and a non-empty
per-question list of count 2, whose entries are numbers rather than dicts. -/
def c4_mismatch_reply : String :=
  "\x7b\"overall_score\":7,\"summary\":\"ok\",\"question_scores\":[1,2]\x7d"

/-- The member list of the object parsed from `c4_mismatch_reply`. -/
def c4_mismatch_kv : List (String × Json) :=
  [("overall_score", .num (mkRat 7 1)), ("summary", .str "ok"),
   ("question_scores", .arr [.num (mkRat 1 1), .num (mkRat 2 1)])]

/-- C4 counterexample: scoring a one-turn transcript with a reply whose
object has `overall_score`, `summary` and the non-empty two-entry list
`[1, 2]` — a count mismatch — does NOT return the object: the verification
print loop calls `.get` on the number entries and raises AttributeError,
so scoring fails although no field is missing and the count difference was
only warned about. -/
theorem C4_counterexample :
    (get_transcript c4db).length = 1 ∧
    extract_score_data c4_mismatch_reply = .ok (Json.obj c4_mismatch_kv) ∧
    jsonHas (Json.obj c4_mismatch_kv) "overall_score" = true ∧
    jsonHas (Json.obj c4_mismatch_kv) "summary" = true ∧
    jsonGet (Json.obj c4_mismatch_kv) "question_scores" =
      some (.arr [.num (mkRat 1 1), .num (mkRat 2 1)]) ∧
    (score_interview c4db (.ok c4_mismatch_reply) false).result =
      .error .attributeError := by
  refine ⟨by rfl, by rfl, by rfl, by rfl, by rfl, by rfl⟩

/-- C4 (amended): after parsing, a question_scores value without a length
raises a fatal TypeError at the warning line before the field checks;
otherwise scoring fails with a field-missing error exactly when the object
lacks `overall_score`, lacks `summary`, or has an empty (python falsy)
per-question list; a per-question count differing from the transcript
length itself only produces a warning, and the object is still returned
provided the post-save verification print loop survives — every entry a
dict whose justification value, when present, is sliceable; a loop failure
propagates and scoring fails, the report having already been persisted. -/
theorem C4_validation (db : DB) (r : String) (kv : List (String × Json))
    (l : List Json) (hT : get_transcript db ≠ [])
    (hx : extract_score_data r = .ok (Json.obj kv))
    (hqs : (jsonGet (Json.obj kv) "question_scores").getD (Json.arr []) = Json.arr l) :
    ((score_interview db (.ok r) false).result = .ok (Json.obj kv) ↔
      jsonHas (Json.obj kv) "overall_score" = true ∧
      jsonHas (Json.obj kv) "summary" = true ∧ l ≠ [] ∧ printLoopRun l = none) ∧
    (jsonHas (Json.obj kv) "overall_score" = false →
      (score_interview db (.ok r) false).result = .error .missingOverallScore) ∧
    (jsonHas (Json.obj kv) "overall_score" = true →
      jsonHas (Json.obj kv) "summary" = false →
      (score_interview db (.ok r) false).result = .error .missingSummary) ∧
    (jsonHas (Json.obj kv) "overall_score" = true →
      jsonHas (Json.obj kv) "summary" = true → l = [] →
      (score_interview db (.ok r) false).result = .error .noQuestionScores) ∧
    (∀ e : Err, jsonHas (Json.obj kv) "overall_score" = true →
      jsonHas (Json.obj kv) "summary" = true → printLoopRun l = some e →
      (score_interview db (.ok r) false).result = .error e) ∧
    (l.length ≠ (get_transcript db).length →
      ((score_interview db (.ok r) false).result = .ok (Json.obj kv) ↔
        jsonHas (Json.obj kv) "overall_score" = true ∧
        jsonHas (Json.obj kv) "summary" = true ∧ l ≠ [] ∧ printLoopRun l = none)) := by
  have key : score_interview db (.ok r) false =
      (match validate_score_data (Json.obj kv) with
       | .error e =>
         { result := .error e, db := db,
           calls := [.gemini (get_transcript db).length] }
       | .ok _ =>
         (match printLoopRun l with
          | some e =>
            { result := .error e,
              db := { db with score_report := some (Json.obj kv) },
              calls := [.gemini (get_transcript db).length] }
          | none =>
            { result := .ok (Json.obj kv),
              db := { db with score_report := some (Json.obj kv) },
              calls := [.gemini (get_transcript db).length] })) := by
    rw [score_interview_reduce db r hT false, hx]
    cases hv : validate_score_data (Json.obj kv) <;>
      cases hpl : printLoopRun l <;>
        simp [hv, hqs, printLoopCheck, hpl]
  rw [validate_score_data_eq kv l hqs] at key
  have hres : (score_interview db (.ok r) false).result =
      (if jsonHas (Json.obj kv) "overall_score" = false then .error .missingOverallScore
       else if jsonHas (Json.obj kv) "summary" = false then .error .missingSummary
       else if l.isEmpty then .error .noQuestionScores
       else
         match printLoopRun l with
         | some e => .error e
         | none => .ok (Json.obj kv)) := by
    rw [key]
    cases h1 : jsonHas (Json.obj kv) "overall_score" <;>
      cases h2 : jsonHas (Json.obj kv) "summary" <;>
        cases h3 : l.isEmpty <;>
          cases h4 : printLoopRun l <;>
            simp [h1, h2, h3, h4]
  have hiff : (score_interview db (.ok r) false).result = .ok (Json.obj kv) ↔
      jsonHas (Json.obj kv) "overall_score" = true ∧
      jsonHas (Json.obj kv) "summary" = true ∧ l ≠ [] ∧ printLoopRun l = none := by
    rw [hres]
    cases h1 : jsonHas (Json.obj kv) "overall_score" <;>
      cases h2 : jsonHas (Json.obj kv) "summary" <;>
        cases h3 : l.isEmpty <;>
          cases h4 : printLoopRun l <;>
            simp_all
  refine ⟨hiff, ?_, ?_, ?_, ?_, fun _ => hiff⟩
  · intro h1
    rw [hres]
    simp [h1]
  · intro h1 h2
    rw [hres]
    simp [h1, h2]
  · intro h1 h2 h3
    rw [hres]
    simp [h1, h2, h3]
  · intro e h1 h2 h4
    have hl : l.isEmpty = false := by
      cases l with
      | nil => simp [printLoopRun] at h4
      | cons a t => rfl
    rw [hres]
    simp [h1, h2, hl, h4]

/-- The member list of `spec_example_obj`. -/
def spec_example_kv : List (String × Json) :=
  [("overall_score", .num (mkRat 7 1)), ("summary", .str "ok"),
   ("question_scores", .arr [.obj [("question_number", .num (mkRat 1 1)),
     ("score", .num (mkRat 7 1)), ("justification", .str "fine")]])]

/-- The question-score list of `spec_example_obj`. -/
def spec_example_qs : List Json :=
  [.obj [("question_number", .num (mkRat 1 1)), ("score", .num (mkRat 7 1)),
    ("justification", .str "fine")]]

theorem C4_validation_witness :
    get_transcript c4db ≠ [] ∧
    (score_interview c4db (.ok spec_example_reply) false).result =
      .ok (Json.obj spec_example_kv) :=
  ⟨by decide,
   ((C4_validation c4db spec_example_reply spec_example_kv spec_example_qs
      (by decide) rfl rfl).1).mpr
     ⟨rfl, rfl, by simp [spec_example_qs], rfl⟩⟩

/-! ## C5 -/

/-- C5: with an absent or empty stored transcript, scoring fails with the
empty-transcript error before any model call, and the HTTP route surfaces
it as a 500 error response. -/
theorem C5_empty_transcript (db : DB) (gemini : Except Unit String)
    (db_fail : Bool) (sid : String) (h : get_transcript db = [])
    (hsid : pyTruthyOpt (some sid) = true) :
    score_interview db gemini db_fail =
      { result := .error .noTranscript, db := db, calls := [] } ∧
    (score_voice_interview_route db (some sid) gemini db_fail).1 = 500 ∧
    (score_voice_interview_route db (some sid) gemini db_fail).2.calls = [] := by
  have hs : score_interview db gemini db_fail =
      { result := .error .noTranscript, db := db, calls := [] } := by
    simp [score_interview, h]
  refine ⟨hs, ?_, ?_⟩ <;> simp [score_voice_interview_route, hsid, hs]

/-- A session state with nothing stored. -/
def emptyDb : DB :=
  { transcript := none, last_agent_question := none,
    session_info := none, score_report := none }

theorem C5_empty_transcript_witness :
    get_transcript emptyDb = [] ∧ pyTruthyOpt (some "s1") = true ∧
    ((score_voice_interview_route emptyDb (some "s1") (.ok "reply") false).1 = 500 ∧
     (score_voice_interview_route emptyDb (some "s1") (.ok "reply") false).2.calls = []) :=
  ⟨rfl, rfl,
   (C5_empty_transcript emptyDb (.ok "reply") false "s1" rfl rfl).2⟩

/-! ## C6 -/

/-- C6: on a successful scoring run — validation passed and the
verification print loop survives — the full score object is persisted under
the session and returned verbatim; when persisting fails the error is
swallowed, the database is left unchanged, and the same object is still
returned. -/
theorem C6_persist_and_return (db : DB) (r : String) (score_data : Json)
    (hT : get_transcript db ≠ [])
    (hx : extract_score_data r = .ok score_data)
    (hv : validate_score_data score_data = .ok score_data)
    (hloop : printLoopCheck ((jsonGet score_data "question_scores").getD (Json.arr [])) = none) :
    (∀ db_fail : Bool, (score_interview db (.ok r) db_fail).result = .ok score_data) ∧
    (score_interview db (.ok r) false).db =
      { db with score_report := some score_data } ∧
    (score_interview db (.ok r) true).db = db := by
  have key : ∀ db_fail : Bool, score_interview db (.ok r) db_fail =
      { result := .ok score_data,
        db := if db_fail then db else { db with score_report := some score_data },
        calls := [.gemini (get_transcript db).length] } := by
    intro db_fail
    rw [score_interview_reduce db r hT db_fail, hx]
    simp [hv, hloop]
  exact ⟨fun db_fail => by rw [key db_fail],
    by rw [key false]; simp,
    by rw [key true]; simp⟩

theorem C6_persist_and_return_witness :
    (score_interview c4db (.ok spec_example_reply) true).result =
      .ok spec_example_obj ∧
    (score_interview c4db (.ok spec_example_reply) false).db =
      { c4db with score_report := some spec_example_obj } ∧
    (score_interview c4db (.ok spec_example_reply) true).db = c4db :=
  ⟨(C6_persist_and_return c4db spec_example_reply spec_example_obj
      (by decide) rfl rfl rfl).1 true,
   (C6_persist_and_return c4db spec_example_reply spec_example_obj
      (by decide) rfl rfl rfl).2.1,
   (C6_persist_and_return c4db spec_example_reply spec_example_obj
      (by decide) rfl rfl rfl).2.2⟩

/-! ## C7 -/

theorem startsWithChars_iff (needle : List Char) :
    ∀ hay : List Char, startsWithChars needle hay = true ↔ needle <+: hay := by
  induction needle with
  | nil => intro hay; simp [startsWithChars]
  | cons a as ih =>
    intro hay
    cases hay with
    | nil => simp [startsWithChars]
    | cons b bs =>
      by_cases hab : a = b
      · simp [startsWithChars, hab, ih bs, List.cons_prefix_cons]
      · simp [startsWithChars, hab, List.cons_prefix_cons]

theorem containsChars_iff (hay needle : List Char) :
    containsChars hay needle = true ↔ needle <:+: hay := by
  induction hay with
  | nil => simp [containsChars, startsWithChars_iff, List.infix_nil, List.prefix_nil]
  | cons c t ih =>
    simp [containsChars, startsWithChars_iff, ih, List.infix_cons_iff]

theorem isEndIntent_iff (intent_name : String) :
    isEndIntent intent_name = true ↔
      ∃ keyword ∈ end_keywords, keyword.data <:+: (pyLower intent_name).data := by
  simp [isEndIntent, List.any_eq_true, containsChars_iff]

/-- C7: in both exchange variants the returned is-interview-over flag is
true iff the lowercased intent display name contains one of the substrings
"end", "complete", "finish", "done", and it is false when the platform
returns no intent. -/
theorem C7_is_end_flag (db : DB) (session_id msg enc : String) (sr : Nat)
    (laq : Option String) (resp : PlatformResp) (o : DetectResult)
    (ov : VoiceDetectResult) :
    ((detect_intent db session_id msg laq (.ok resp)).result = .ok o →
      ((o.is_end = true ↔
          ∃ keyword ∈ end_keywords,
            keyword.data <:+: (pyLower (resp.intent.getD "")).data) ∧
       (resp.intent = none → o.is_end = false))) ∧
    ((detect_intent_with_audio db session_id enc sr laq (.ok resp)).result = .ok ov →
      ((ov.is_end = true ↔
          ∃ keyword ∈ end_keywords,
            keyword.data <:+: (pyLower (resp.intent.getD "")).data) ∧
       (resp.intent = none → ov.is_end = false))) := by
  constructor
  · intro h
    have ho : o.is_end = isEndIntent (resp.intent.getD "") := by
      simp only [detect_intent] at h
      cases h
      rfl
    refine ⟨by rw [ho]; exact isEndIntent_iff _, fun hnone => ?_⟩
    rw [ho, hnone]
    rfl
  · intro h
    have ho : ov.is_end = isEndIntent (resp.intent.getD "") := by
      simp only [detect_intent_with_audio] at h
      cases h
      rfl
    refine ⟨by rw [ho]; exact isEndIntent_iff _, fun hnone => ?_⟩
    rw [ho, hnone]
    rfl

/-- A platform response whose intent name contains the keyword "end". -/
def c7resp : PlatformResp :=
  { query_text := "yes", messages := [["Thanks, we are done."]],
    intent := some "End_Interview", output_audio := "" }

theorem C7_is_end_flag_witness :
    (detect_intent c2db "s" "m" none (.ok c7resp)).result =
      .ok { agent_response := "Thanks, we are done.", intent := "End_Interview",
            is_end := true, session_id := "s" } ∧
    ({ agent_response := "Thanks, we are done.", intent := "End_Interview",
       is_end := true, session_id := "s" } : DetectResult).is_end = true :=
  ⟨rfl,
   ((C7_is_end_flag c2db "s" "m" "e" 0 none c7resp
       { agent_response := "Thanks, we are done.", intent := "End_Interview",
         is_end := true, session_id := "s" }
       { audio_response := none, audio_format := "mp3", agent_response_text := "",
         user_transcript := "", intent := "", is_end := false,
         session_id := "" }).1 rfl).1.mpr
     ⟨"end", by decide, by
        have : containsChars (pyLower "End_Interview").data "end".data = true := by decide
        exact (containsChars_iff _ _).mp this⟩⟩

/-! ## C8 -/

/-- A minimal platform response used for concrete request evaluations. -/
def resp0 : PlatformResp :=
  { query_text := "", messages := [["First question?"]], intent := none,
    output_audio := "" }

/-- C8 counterexample: in a concrete start call the query parameters are
exactly resume summary, persona and difficulty — the role is sent as the
text input, and no query-parameter key or value carries the role. -/
theorem C8_counterexample :
    (start_interview_session c2db "s1" "Engineer" "resume" "persona" "Hard"
        (.ok resp0) false).calls =
      [.detect { session := "s1", text := some "Engineer", audio := false,
                 audio_encoding := none, sample_rate := none,
                 query_params := some (start_custom_params "resume" "persona" "Hard"),
                 output_audio := false }] ∧
    "role" ∉ (start_custom_params "resume" "persona" "Hard").map Prod.fst ∧
    "Engineer" ∉ (start_custom_params "resume" "persona" "Hard").map Prod.snd :=
  ⟨rfl, by decide, by decide⟩

/-- C8 (amended): resume summary, persona and difficulty are attached as
session-scoped query parameters only in the start requests, while the role
is sent as the start call's text input; every subsequent exchange request —
text or audio — carries no query parameters, so the session parameters are
never re-sent after the first call. -/
theorem C8_params_only_at_start (db : DB) (session_id role rs p d msg enc : String)
    (laq : Option String) (sr : Nat) (plat : Except Unit PlatformResp) (f : Bool) :
    (start_interview_session db session_id role rs p d plat f).calls =
      [.detect { session := session_id, text := some role, audio := false,
                 audio_encoding := none, sample_rate := none,
                 query_params := some (start_custom_params rs p d),
                 output_audio := false }] ∧
    (start_voice_interview_session db session_id role rs p d plat f).calls =
      [.detect { session := session_id, text := some role, audio := false,
                 audio_encoding := none, sample_rate := none,
                 query_params := some (start_custom_params rs p d),
                 output_audio := true }] ∧
    (detect_intent db session_id msg laq plat).calls =
      [.detect { session := session_id, text := some msg, audio := false,
                 audio_encoding := none, sample_rate := none,
                 query_params := none, output_audio := false }] ∧
    (detect_intent_with_audio db session_id enc sr laq plat).calls =
      [.detect { session := session_id, text := none, audio := true,
                 audio_encoding := some (encoding_map enc),
                 sample_rate := some sr, query_params := none,
                 output_audio := true }] := by
  cases plat <;> exact ⟨rfl, rfl, rfl, rfl⟩

/-! ## C9 -/

/-- C9: whenever the start operation's database writes succeed — in either
variant — the stored transcript afterwards is the empty list and the pending
question is the returned first reply, so re-starting an already-used session
identifier erases all previously recorded turns. -/
theorem C9_start_resets (db : DB) (session_id role rs p d : String)
    (resp : PlatformResp) :
    ((start_interview_session db session_id role rs p d (.ok resp) false).db.transcript =
        some [] ∧
     ∃ st : StartResult,
       (start_interview_session db session_id role rs p d (.ok resp) false).result =
         .ok st ∧
       (start_interview_session db session_id role rs p d (.ok resp) false).db.last_agent_question =
         some st.agent_response) ∧
    ((start_voice_interview_session db session_id role rs p d (.ok resp) false).db.transcript =
        some [] ∧
     ∃ vst : VoiceStartResult,
       (start_voice_interview_session db session_id role rs p d (.ok resp) false).result =
         .ok vst ∧
       (start_voice_interview_session db session_id role rs p d (.ok resp) false).db.last_agent_question =
         some vst.agent_response_text) := by
  refine ⟨⟨rfl, ⟨_, rfl, rfl⟩⟩, ⟨rfl, ⟨_, rfl, rfl⟩⟩⟩

/-! ## C10 -/

/-- C10: in the audio exchange a transcript turn is appended iff both a
stored pending question exists (is truthy) and the platform's speech-to-text
transcription is non-empty; when either is missing the call still succeeds
and returns a non-empty agent reply, but the transcript is left unchanged. -/
theorem C10_audio_append_iff (db : DB) (session_id enc : String) (sr : Nat)
    (laqArg : Option String) (resp : PlatformResp) :
    (∃ ov : VoiceDetectResult,
      (detect_intent_with_audio db session_id enc sr laqArg (.ok resp)).result =
        .ok ov ∧
      ov.agent_response_text ≠ "" ∧ ov.user_transcript = resp.query_text) ∧
    ((pyTruthyOpt (effective_last_question db laqArg)
        && !(resp.query_text = "")) = true →
      get_transcript (detect_intent_with_audio db session_id enc sr laqArg
          (.ok resp)).db =
        get_transcript db ++
          [{ turn := (get_transcript db).length + 1,
             question := (effective_last_question db laqArg).getD "",
             answer := resp.query_text }]) ∧
    ((pyTruthyOpt (effective_last_question db laqArg)
        && !(resp.query_text = "")) = false →
      (detect_intent_with_audio db session_id enc sr laqArg (.ok resp)).db.transcript =
        db.transcript) := by
  refine ⟨⟨_, rfl, ?_, rfl⟩, fun happ => ?_, fun hnapp => ?_⟩
  · by_cases hae : extract_agent_response resp.messages = "" <;>
      simp [detect_intent_with_audio, hae]
  · have hdb1 : (detect_intent_with_audio db session_id enc sr laqArg
        (.ok resp)).db.transcript =
        (save_transcript_entry db ((effective_last_question db laqArg).getD "")
          resp.query_text).transcript := by
      simp only [detect_intent_with_audio, happ, if_true]
      by_cases hae : extract_agent_response resp.messages = "" <;>
        by_cases he : isEndIntent (resp.intent.getD "") <;>
          simp [hae, he, save_transcript_entry]
    show (detect_intent_with_audio db session_id enc sr laqArg
        (.ok resp)).db.transcript.getD [] = _
    rw [hdb1]
    exact congrArg (Option.getD · []) (congrArg DB.transcript rfl) ▸
      get_transcript_save db ((effective_last_question db laqArg).getD "")
        resp.query_text
  · simp only [detect_intent_with_audio, hnapp, if_false]
    by_cases hae : extract_agent_response resp.messages = "" <;>
      by_cases he : isEndIntent (resp.intent.getD "") <;>
        simp [hae, he]

/-- A platform response whose speech-to-text transcription is empty. -/
def respEmptySTT : PlatformResp :=
  { query_text := "", messages := [["Could you repeat?"]], intent := none,
    output_audio := "audiobytes" }

theorem C10_audio_append_iff_witness :
    (pyTruthyOpt (effective_last_question c2db none)
        && !(respEmptySTT.query_text = "")) = false ∧
    (detect_intent_with_audio c2db "s" "AUDIO_ENCODING_WEBM_OPUS" 24000 none
        (.ok respEmptySTT)).db.transcript = c2db.transcript :=
  ⟨rfl,
   (C10_audio_append_iff c2db "s" "AUDIO_ENCODING_WEBM_OPUS" 24000 none
      respEmptySTT).2.2 rfl⟩

end AskAI
